import Mathlib

/-!
Verification of the Constant-Acceleration Space Travel calculator
(`src/app.py`) against its natural-language specification.

The physics engine (`render_results_page`, validation in
`render_calculator_page`) is embedded over the real numbers: Python floats
and `Decimal` values both become `ℝ`, `** 0.5` becomes `Real.sqrt`,
`Decimal.exp` becomes `Real.exp`.  The duration formatter `format_time` is
embedded over `ℚ` so that it is fully executable; Python's `//` and `%` on
integers agree with `/` and `%` on `ℤ` (Euclidean division) for the
positive divisors used here.
-/

namespace SpaceTravel

/-- Model of Python `int(x)`: truncation toward zero (`app.py:43`). -/
def pyInt (q : ℚ) : ℤ := if 0 ≤ q then ⌊q⌋ else -⌊-q⌋

/-- Round a rational to the nearest integer, ties to even: the rounding
Python applies when formatting an exactly represented value with `:.2f`
or `:.2e`. -/
def rhe (q : ℚ) : ℤ :=
  let f := ⌊q⌋
  let r := q - (f : ℚ)
  if r < 1/2 then f else if 1/2 < r then f + 1 else if f % 2 = 0 then f else f + 1

/-- Two-digit zero-padded rendering of a natural number (used for the two
fraction digits of `:.2f`/`:.2e` and for the exponent of `:.2e`). -/
def pad2 (n : ℕ) : String := if n < 10 then "0" ++ toString n else toString n

/-- Model of Python `f"{x:.2f}"` on an exact rational value: round
`100·x` half-to-even and render with two decimal places
(`app.py:71`). -/
def fmt2f (q : ℚ) : String :=
  let n := rhe (100 * q)
  let sgn := if n < 0 then "-" else ""
  let m := n.natAbs
  sgn ++ toString (m / 100) ++ "." ++ pad2 (m % 100)

/-- Round `n` to a quotient of `d`, half to even (helper for `sci2`). -/
def rhe3 (n d : ℕ) : ℕ :=
  let q := n / d
  let r := n % d
  if 2 * r < d then q else if d < 2 * r then q + 1 else if q % 2 = 0 then q else q + 1

/-- Model of Python `f"{value:.2e}"` on an integer (`app.py:58`): mantissa
with two fraction digits, half-to-even decimal rounding, exponent of at
least two digits.  (Python first converts the int to a float, so for
magnitudes at or beyond 2^53 the float conversion could round first; the
branch using this is only reachable for year counts.) -/
def sci2 (value : ℤ) : String :=
  if value = 0 then "0.00e+00"
  else
    let sgn := if value < 0 then "-" else ""
    let n := value.natAbs
    let e := Nat.log 10 n
    let m := if 2 ≤ e then rhe3 n (10 ^ (e - 2)) else n * 10 ^ (2 - e)
    let m2 := if 1000 ≤ m then m / 10 else m
    let e2 := if 1000 ≤ m then e + 1 else e
    sgn ++ toString (m2 / 100) ++ "." ++ pad2 (m2 % 100) ++ "e+" ++ pad2 e2

/-- The unit cascade of `format_time` (`app.py:46-51`). -/
def intervals : List (String × ℕ) :=
  [("year", 365 * 24 * 3600), ("day", 24 * 3600), ("hour", 3600), ("minute", 60)]

/-- One iteration of the loop in `format_time` (`app.py:54-64`): divide the
remaining whole seconds by the unit length, emit the entry prescribed by
the branch ladder, and keep the remainder. -/
def formatStep (st : List String × ℤ) (nc : String × ℕ) : List String × ℤ :=
  let value := st.2 / (nc.2 : ℤ)
  let result :=
    if 1000000 ≤ value then st.1 ++ [sci2 value ++ " " ++ nc.1 ++ "s"]
    else if value = 1 then st.1 ++ [toString value ++ " " ++ nc.1]
    else if 1 < value ∨ (value = 0 ∧ st.1 ≠ []) then
      st.1 ++ [toString value ++ " " ++ nc.1 ++ "s"]
    else st.1
  (result, st.2 % (nc.2 : ℤ))

/-- Embedding of `format_time` (`app.py:41-73`): split off the fractional
part, run the unit cascade over the whole seconds, then always append the
final seconds entry and join with `", "`. -/
def format_time (seconds : ℚ) : String :=
  let whole_seconds := pyInt seconds
  let fractional_seconds := seconds - (whole_seconds : ℚ)
  let st := intervals.foldl formatStep ([], whole_seconds)
  let final_seconds := (st.2 : ℚ) + fractional_seconds
  let result :=
    if final_seconds = 1 then st.1 ++ ["1 second"]
    else st.1 ++ [fmt2f final_seconds ++ " seconds"]
  String.intercalate ", " result

/-- The engine catalog (`app.py:35-39`): engine name to effective exhaust
velocity in m/s. -/
def engines : List (String × ℕ) :=
  [("LOX/LH2", 4400),
   ("NEXT Electrostatic Ion Thruster", 40000),
   ("DS4G Ion Thruster", 210000)]

/-- The speed of light in m/s, the superluminal-velocity guard of
`app.py:139`. -/
def speedOfLight : ℝ := 299792458

/-- The significant-digit precision set for all `Decimal` computations:
`getcontext().prec = 10` (`app.py:6`). -/
def decimalPrecision : ℕ := 10

/-- Errors the calculation can report (`app.py:106-113` name the
non-positive field; `app.py:139-141` is the physical limit). -/
inductive CalcError where
  | accelerationNonpositive
  | dryMassNonpositive
  | distanceNonpositive
  | physicalLimit
deriving DecidableEq, Repr

/-- The derived quantities displayed by the results page
(`app.py:135-153`). -/
structure FlightResult where
  travel_time : ℝ
  max_velocity : ℝ
  fuel_mass : ℝ
  total_mass : ℝ
  total_energy : ℝ
  liftoff_power : ℝ

noncomputable section

/-- Embedding of `travel_time = 2 * (distance / acceleration) ** 0.5`
(`app.py:135`). -/
def travel_time (distance acceleration : ℝ) : ℝ :=
  2 * Real.sqrt (distance / acceleration)

/-- Embedding of `max_velocity = (acceleration * distance) ** 0.5`
(`app.py:136`). -/
def max_velocity (distance acceleration : ℝ) : ℝ :=
  Real.sqrt (acceleration * distance)

/-- Embedding of the rocket-equation step
`fuel_mass_dec = dry_mass_dec * (exponent.exp() - 1)` with
`exponent = (2 * max_velocity_dec) / v_e_dec` (`app.py:149-150`). -/
def fuel_mass (dry_mass v_max v_e : ℝ) : ℝ :=
  dry_mass * (Real.exp ((2 * v_max) / v_e) - 1)

/-- The whole calculation path for one request: the validation ladder of
`render_calculator_page` (`app.py:106-113`, in source order), then the
kinematics, the superluminal guard, and the `Decimal` derivations of
`render_results_page` (`app.py:135-153`). -/
def compute (distance dry_mass acceleration v_e : ℝ) :
    Except CalcError FlightResult :=
  if acceleration ≤ 0 then Except.error CalcError.accelerationNonpositive
  else if dry_mass ≤ 0 then Except.error CalcError.dryMassNonpositive
  else if distance ≤ 0 then Except.error CalcError.distanceNonpositive
  else if speedOfLight ≤ max_velocity distance acceleration then
    Except.error CalcError.physicalLimit
  else
    let fm := fuel_mass dry_mass (max_velocity distance acceleration) v_e
    let tm := dry_mass + fm
    Except.ok
      { travel_time := travel_time distance acceleration
        max_velocity := max_velocity distance acceleration
        fuel_mass := fm
        total_mass := tm
        total_energy := (1/2) * fm * v_e ^ 2
        liftoff_power := (1/2) * tm * acceleration * v_e }

end

/-- Helper: on inputs passing validation and the superluminal guard,
`compute` succeeds with the record of derived quantities. -/
theorem compute_ok {d m a v : ℝ} (hd : 0 < d) (hm : 0 < m) (ha : 0 < a)
    (hc : max_velocity d a < speedOfLight) :
    compute d m a v = Except.ok
      { travel_time := travel_time d a
        max_velocity := max_velocity d a
        fuel_mass := fuel_mass m (max_velocity d a) v
        total_mass := m + fuel_mass m (max_velocity d a) v
        total_energy := (1/2) * fuel_mass m (max_velocity d a) v * v ^ 2
        liftoff_power :=
          (1/2) * (m + fuel_mass m (max_velocity d a) v) * a * v } := by
  unfold compute
  rw [if_neg (not_le.mpr ha), if_neg (not_le.mpr hm), if_neg (not_le.mpr hd),
    if_neg (not_le.mpr hc)]

/-- Helper: algebraic identity behind the two derivations of the peak
velocity: for positive acceleration, `sqrt (a * d) = a * (2 * sqrt (d / a) / 2)`. -/
theorem max_velocity_eq_accel_mul_half_time (d a : ℝ) (ha : 0 < a) :
    max_velocity d a = a * (travel_time d a / 2) := by
  unfold max_velocity travel_time
  rw [mul_div_cancel_left₀ _ (two_ne_zero (α := ℝ))]
  rw [show a * Real.sqrt (d / a) = Real.sqrt (a ^ 2 * (d / a)) by
    rw [Real.sqrt_mul (sq_nonneg a), Real.sqrt_sq ha.le]]
  congr 1
  field_simp
  ring

/-- Helper: the peak velocity at the unit inputs is 1. -/
theorem max_velocity_one_one : max_velocity 1 1 = 1 := by
  unfold max_velocity
  rw [mul_one, Real.sqrt_one]

/-- Helper: the unit inputs pass the superluminal guard. -/
theorem max_velocity_one_one_lt : max_velocity 1 1 < speedOfLight := by
  rw [max_velocity_one_one]
  norm_num [speedOfLight]

/-- C1: for every input passing validation and the physical-limit check,
the fuel mass equals `dry_mass * (exp (2 * max_velocity / v_e) - 1)`
(`app.py:149-150`), and the decimal context used for that computation is
set to at least 10 significant digits (`app.py:6`).  (The `Decimal`
arithmetic is embedded as exact real arithmetic; its configured precision
is recorded by `decimalPrecision`.) -/
theorem fuel_mass_rocket_equation (d m a v : ℝ) (hd : 0 < d) (hm : 0 < m)
    (ha : 0 < a) (hc : max_velocity d a < speedOfLight) :
    ∃ r : FlightResult, compute d m a v = Except.ok r ∧
      r.fuel_mass = m * (Real.exp ((2 * max_velocity d a) / v) - 1) ∧
      10 ≤ decimalPrecision :=
  ⟨_, compute_ok hd hm ha hc, rfl, le_refl 10⟩

/-- Witness for C1 at `d = m = a = 1`, `v_e = 4400`. -/
theorem fuel_mass_rocket_equation_witness :
    (0:ℝ) < 1 ∧ max_velocity 1 1 < speedOfLight ∧
    ∃ r : FlightResult, compute 1 1 1 4400 = Except.ok r ∧
      r.fuel_mass = 1 * (Real.exp ((2 * max_velocity 1 1) / 4400) - 1) ∧
      10 ≤ decimalPrecision :=
  ⟨one_pos, max_velocity_one_one_lt,
    fuel_mass_rocket_equation 1 1 1 4400 one_pos one_pos one_pos
      max_velocity_one_one_lt⟩

/-- C2: for every valid input, the returned travel time is
`2 * sqrt (distance / acceleration)` and the returned peak velocity
satisfies `max_velocity = acceleration * (travel_time / 2)` exactly.  (The
source computes `max_velocity` as `(acceleration * distance) ** 0.5`,
`app.py:136`; in the exact-arithmetic embedding this coincides with
`acceleration * (travel_time / 2)`, so the relation between the two
returned values holds exactly.) -/
theorem max_velocity_consistent_with_travel_time (d m a v : ℝ) (hd : 0 < d)
    (hm : 0 < m) (ha : 0 < a) (hc : max_velocity d a < speedOfLight) :
    ∃ r : FlightResult, compute d m a v = Except.ok r ∧
      r.travel_time = 2 * Real.sqrt (d / a) ∧
      r.max_velocity = a * (r.travel_time / 2) := by
  refine ⟨_, compute_ok hd hm ha hc, rfl, ?_⟩
  exact max_velocity_eq_accel_mul_half_time d a ha

/-- Witness for C2 at `d = m = a = 1`, `v_e = 4400`. -/
theorem max_velocity_consistent_with_travel_time_witness :
    (0:ℝ) < 1 ∧ max_velocity 1 1 < speedOfLight ∧
    ∃ r : FlightResult, compute 1 1 1 4400 = Except.ok r ∧
      r.travel_time = 2 * Real.sqrt (1 / 1) ∧
      r.max_velocity = 1 * (r.travel_time / 2) :=
  ⟨one_pos, max_velocity_one_one_lt,
    max_velocity_consistent_with_travel_time 1 1 1 4400 one_pos one_pos
      one_pos max_velocity_one_one_lt⟩

/-- C3: non-positive inputs are rejected with the error naming the
offending field before any computation, the checks running in the order
acceleration, then dry mass, then distance, the first failing check
winning (`app.py:106-113`). -/
theorem validation_order (d m a v : ℝ) :
    (a ≤ 0 → compute d m a v = Except.error CalcError.accelerationNonpositive) ∧
    (0 < a → m ≤ 0 → compute d m a v = Except.error CalcError.dryMassNonpositive) ∧
    (0 < a → 0 < m → d ≤ 0 →
      compute d m a v = Except.error CalcError.distanceNonpositive) := by
  refine ⟨fun h => ?_, fun ha h => ?_, fun ha hm h => ?_⟩ <;> unfold compute
  · rw [if_pos h]
  · rw [if_neg (not_le.mpr ha), if_pos h]
  · rw [if_neg (not_le.mpr ha), if_neg (not_le.mpr hm), if_pos h]

/-- Witness for C3: a non-positive value in each field (with both earlier
checks passing for the later fields) yields that field's error. -/
theorem validation_order_witness :
    ((-1:ℝ) ≤ 0 ∧
      compute 1 1 (-1) 1 = Except.error CalcError.accelerationNonpositive) ∧
    ((0:ℝ) < 1 ∧ (-2:ℝ) ≤ 0 ∧
      compute 1 (-2) 1 1 = Except.error CalcError.dryMassNonpositive) ∧
    ((0:ℝ) < 1 ∧ (0:ℝ) < 1 ∧ (-3:ℝ) ≤ 0 ∧
      compute (-3) 1 1 1 = Except.error CalcError.distanceNonpositive) :=
  ⟨⟨by norm_num, (validation_order 1 1 (-1) 1).1 (by norm_num)⟩,
   ⟨one_pos, by norm_num, (validation_order 1 (-2) 1 1).2.1 one_pos (by norm_num)⟩,
   ⟨one_pos, one_pos, by norm_num,
     (validation_order (-3) 1 1 1).2.2 one_pos one_pos (by norm_num)⟩⟩

/-- C4: a valid input whose derived peak velocity reaches the speed of
light fails with the physical-limit error and yields no `FlightResult`
(`app.py:138-141`). -/
theorem physical_limit_guard (d m a v : ℝ) (hd : 0 < d) (hm : 0 < m)
    (ha : 0 < a) (hc : speedOfLight ≤ max_velocity d a) :
    compute d m a v = Except.error CalcError.physicalLimit ∧
    ∀ r : FlightResult, compute d m a v ≠ Except.ok r := by
  have h : compute d m a v = Except.error CalcError.physicalLimit := by
    unfold compute
    rw [if_neg (not_le.mpr ha), if_neg (not_le.mpr hm), if_neg (not_le.mpr hd),
      if_pos hc]
  refine ⟨h, fun r hr => ?_⟩
  rw [h] at hr
  exact Except.noConfusion hr

/-- Witness for C4 at `d = c ^ 2`, `a = 1`, where the peak velocity is
exactly the speed of light. -/
theorem physical_limit_guard_witness :
    (0:ℝ) < speedOfLight ^ 2 ∧ (0:ℝ) < 1 ∧
    speedOfLight ≤ max_velocity (speedOfLight ^ 2) 1 ∧
    compute (speedOfLight ^ 2) 1 1 1 = Except.error CalcError.physicalLimit := by
  have h0 : (0:ℝ) ≤ speedOfLight := by norm_num [speedOfLight]
  have hc : speedOfLight ≤ max_velocity (speedOfLight ^ 2) 1 := by
    unfold max_velocity
    rw [one_mul, Real.sqrt_sq h0]
  have hd2 : (0:ℝ) < speedOfLight ^ 2 := by norm_num [speedOfLight]
  refine ⟨hd2, one_pos, hc, ?_⟩
  exact (physical_limit_guard (speedOfLight ^ 2) 1 1 1 hd2 one_pos one_pos hc).1

/-- C5: for every input passing validation and the physical-limit check,
the remaining derived quantities satisfy `total_mass = dry_mass + fuel_mass`,
`total_energy = 0.5 * fuel_mass * v_e ^ 2` and
`liftoff_power = 0.5 * total_mass * acceleration * v_e` (`app.py:151-153`). -/
theorem derived_quantities (d m a v : ℝ) (hd : 0 < d) (hm : 0 < m)
    (ha : 0 < a) (hc : max_velocity d a < speedOfLight) :
    ∃ r : FlightResult, compute d m a v = Except.ok r ∧
      r.total_mass = m + r.fuel_mass ∧
      r.total_energy = (1/2) * r.fuel_mass * v ^ 2 ∧
      r.liftoff_power = (1/2) * r.total_mass * a * v :=
  ⟨_, compute_ok hd hm ha hc, rfl, rfl, rfl⟩

/-- Witness for C5 at `d = m = a = 1`, `v_e = 4400`. -/
theorem derived_quantities_witness :
    (0:ℝ) < 1 ∧ max_velocity 1 1 < speedOfLight ∧
    ∃ r : FlightResult, compute 1 1 1 4400 = Except.ok r ∧
      r.total_mass = 1 + r.fuel_mass ∧
      r.total_energy = (1/2) * r.fuel_mass * (4400:ℝ) ^ 2 ∧
      r.liftoff_power = (1/2) * r.total_mass * 1 * 4400 :=
  ⟨one_pos, max_velocity_one_one_lt,
    derived_quantities 1 1 1 4400 one_pos one_pos one_pos
      max_velocity_one_one_lt⟩

/-- C9: with distance, dry mass and acceleration fixed at valid values,
the computed fuel mass is strictly decreasing in the exhaust velocity
(`app.py:149-150`). -/
theorem fuel_mass_strict_anti (d m a v1 v2 : ℝ) (hd : 0 < d) (hm : 0 < m)
    (ha : 0 < a) (hc : max_velocity d a < speedOfLight) (hv1 : 0 < v1)
    (h12 : v1 < v2) :
    ∃ r1 r2 : FlightResult, compute d m a v1 = Except.ok r1 ∧
      compute d m a v2 = Except.ok r2 ∧ r2.fuel_mass < r1.fuel_mass := by
  refine ⟨_, _, compute_ok hd hm ha hc, compute_ok hd hm ha hc, ?_⟩
  show fuel_mass m (max_velocity d a) v2 < fuel_mass m (max_velocity d a) v1
  have hv : 0 < max_velocity d a := by
    unfold max_velocity
    exact Real.sqrt_pos.mpr (mul_pos ha hd)
  unfold fuel_mass
  have hx : (2 * max_velocity d a) / v2 < (2 * max_velocity d a) / v1 :=
    div_lt_div_of_pos_left (by positivity) hv1 h12
  exact mul_lt_mul_of_pos_left (sub_lt_sub_right (Real.exp_lt_exp.mpr hx) 1) hm

/-- Witness for C9 at `d = m = a = 1`, exhaust velocities 1 and 2. -/
theorem fuel_mass_strict_anti_witness :
    (0:ℝ) < 1 ∧ max_velocity 1 1 < speedOfLight ∧ (0:ℝ) < 1 ∧ (1:ℝ) < 2 ∧
    ∃ r1 r2 : FlightResult, compute 1 1 1 1 = Except.ok r1 ∧
      compute 1 1 1 2 = Except.ok r2 ∧ r2.fuel_mass < r1.fuel_mass :=
  ⟨one_pos, max_velocity_one_one_lt, one_pos, one_lt_two,
    fuel_mass_strict_anti 1 1 1 1 2 one_pos one_pos one_pos
      max_velocity_one_one_lt one_pos one_lt_two⟩

/-- Helper: the remaining whole seconds after the whole unit cascade equal
the input whole seconds modulo 60 (each unit length divides the next
coarser one). -/
theorem foldl_formatStep_snd (res : List String) (w : ℤ) :
    (intervals.foldl formatStep (res, w)).2 = w % 60 := by
  simp only [intervals, List.foldl, formatStep]
  norm_num

/-- Helper: the `:.2f` rendering of a non-negative integer value is its
digits followed by `".00"`. -/
theorem fmt2f_intCast (k : ℤ) (hk : 0 ≤ k) :
    fmt2f ((k : ℤ) : ℚ) = toString k ++ ".00" := by
  have h1 : (100 : ℚ) * ((k : ℤ) : ℚ) = ((100 * k : ℤ) : ℚ) := by push_cast; ring
  simp only [fmt2f, h1]
  have h2 : rhe ((100 * k : ℤ) : ℚ) = 100 * k := by
    simp only [rhe, Int.floor_intCast, sub_self]
    rw [if_pos (by norm_num : (0:ℚ) < 1/2)]
  rw [h2, if_neg (by omega : ¬ (100 * k < 0))]
  have h3 : (100 * k).natAbs = 100 * k.natAbs := by
    simp [Int.natAbs_mul]
  rw [h3, Nat.mul_div_cancel_left _ (by norm_num : 0 < 100),
    Nat.mul_mod_right]
  obtain ⟨m, rfl⟩ := Int.eq_ofNat_of_zero_le hk
  rw [String.append_assoc]
  rfl

/-- Helper: on a whole number of seconds the formatter reduces to a pure
integer computation: the unit cascade over `n`, then the final entry for
`n % 60` rendered with `".00"` (or `"1 second"`). -/
theorem format_time_natCast (n : ℕ) :
    format_time (n : ℚ) = String.intercalate ", "
      ((intervals.foldl formatStep ([], (n : ℤ))).1 ++
        [if (n : ℤ) % 60 = 1 then "1 second"
         else toString ((n : ℤ) % 60) ++ ".00 seconds"]) := by
  have hpy : pyInt (n : ℚ) = (n : ℤ) := by
    simp [pyInt]
  simp only [format_time, hpy]
  rw [foldl_formatStep_snd]
  rw [show (((n : ℤ) % 60 : ℤ) : ℚ) + ((n : ℚ) - ((n : ℤ) : ℚ)) =
      (((n : ℤ) % 60 : ℤ) : ℚ) by push_cast; ring]
  by_cases hc : (n : ℤ) % 60 = 1
  · rw [if_pos hc, if_pos (by rw [hc]; norm_num)]
  · rw [if_neg hc, if_neg (by exact_mod_cast hc)]
    rw [fmt2f_intCast _ (Int.emod_nonneg _ (by norm_num))]
    rw [String.append_assoc]
    rfl

/-- C6 counterexample: the formatter applied to 90 seconds does not return
`"1 minute, 30 seconds"` (the final seconds entry always carries two
decimal places unless the remainder is exactly 1, `app.py:68-71`). -/
theorem format_time_ninety_counterexample :
    format_time 90 ≠ "1 minute, 30 seconds" := by
  have h := format_time_natCast 90
  simp only [Nat.cast_ofNat] at h
  rw [h]
  decide

/-- C6 amended: the formatter applied to 90 seconds returns
`"1 minute, 30.00 seconds"`. -/
theorem format_time_ninety : format_time 90 = "1 minute, 30.00 seconds" := by
  have h := format_time_natCast 90
  simp only [Nat.cast_ofNat] at h
  rw [h]
  decide

/-- Helper: the two-digit padding always produces two characters. -/
theorem pad2_length : ∀ n : ℕ, n < 100 → (pad2 n).length = 2 := by decide

/-- C7: for every non-negative input, the formatter emits the unit cascade
followed by one final seconds entry — `"1 second"` when the remainder
(whole seconds left after minutes plus the fractional part of the input)
is exactly 1, otherwise the remainder rendered with exactly two decimal
places and `" seconds"` — all joined with `", "` (`app.py:66-73`); and
every `:.2f` rendering of a non-negative rational consists of an integer
part, a dot and exactly two digits. -/
theorem final_seconds_entry (q : ℚ) (h : 0 ≤ q) :
    (format_time q = String.intercalate ", "
      ((intervals.foldl formatStep ([], pyInt q)).1 ++
        [if ((pyInt q % 60 : ℤ) : ℚ) + (q - ((pyInt q : ℤ) : ℚ)) = 1
         then "1 second"
         else fmt2f (((pyInt q % 60 : ℤ) : ℚ) + (q - ((pyInt q : ℤ) : ℚ))) ++
           " seconds"])) ∧
    (∀ r : ℚ, 0 ≤ r → ∃ k : ℕ,
      fmt2f r = toString (k / 100) ++ "." ++ pad2 (k % 100) ∧
      (pad2 (k % 100)).length = 2) := by
  constructor
  · simp only [format_time]
    rw [foldl_formatStep_snd]
    by_cases hc : ((pyInt q % 60 : ℤ) : ℚ) + (q - ((pyInt q : ℤ) : ℚ)) = 1
    · rw [if_pos hc, if_pos hc]
    · rw [if_neg hc, if_neg hc]
  · intro r hr
    have h100 : (0:ℚ) ≤ 100 * r := by positivity
    have hf : 0 ≤ ⌊(100:ℚ) * r⌋ := Int.floor_nonneg.mpr h100
    have hn : 0 ≤ rhe (100 * r) := by
      simp only [rhe]
      split_ifs <;> omega
    refine ⟨(rhe (100 * r)).natAbs, ?_, pad2_length _ (Nat.mod_lt _ (by norm_num))⟩
    simp only [fmt2f]
    rw [if_neg (not_lt.mpr hn)]
    rfl

/-- Witness for C7 at input 90 (second conjunct instantiated at the
remainder 30). -/
theorem final_seconds_entry_witness :
    (0 ≤ (90:ℚ)) ∧
    (format_time 90 = String.intercalate ", "
      ((intervals.foldl formatStep ([], pyInt 90)).1 ++
        [if ((pyInt 90 % 60 : ℤ) : ℚ) + ((90:ℚ) - ((pyInt 90 : ℤ) : ℚ)) = 1
         then "1 second"
         else fmt2f (((pyInt 90 % 60 : ℤ) : ℚ) +
             ((90:ℚ) - ((pyInt 90 : ℤ) : ℚ))) ++ " seconds"])) ∧
    (0 ≤ (30:ℚ) ∧ ∃ k : ℕ,
      fmt2f 30 = toString (k / 100) ++ "." ++ pad2 (k % 100) ∧
      (pad2 (k % 100)).length = 2) :=
  ⟨by norm_num, (final_seconds_entry 90 (by norm_num)).1,
    by norm_num, (final_seconds_entry 90 (by norm_num)).2 30 (by norm_num)⟩

/-- C8: a unit whose floored value is 0 is emitted (as `"0 <unit>s"`) if
and only if a coarser unit already produced an entry (`app.py:61-63`);
once any unit has been emitted, every following unit emits an entry; and
an input with nonzero hours but zero minutes still shows `"0 minutes"`
before the final seconds entry. -/
theorem zero_unit_emission (st : List String × ℤ) (nc : String × ℕ) :
    (st.2 / (nc.2 : ℤ) = 0 →
      (formatStep st nc).1 =
        if st.1 = [] then st.1 else st.1 ++ ["0 " ++ nc.1 ++ "s"]) ∧
    (0 ≤ st.2 → st.1 ≠ [] →
      ∃ s : String, (formatStep st nc).1 = st.1 ++ [s]) ∧
    format_time 3600 = "1 hour, 0 minutes, 0.00 seconds" := by
  have h3600 : format_time 3600 = "1 hour, 0 minutes, 0.00 seconds" := by
    have h := format_time_natCast 3600
    simp only [Nat.cast_ofNat] at h
    rw [h]
    decide
  refine ⟨fun h0 => ?_, fun hw hne => ?_, h3600⟩
  · simp only [formatStep, h0]
    rw [if_neg (by norm_num), if_neg (by norm_num)]
    by_cases hst : st.1 = []
    · rw [if_neg (by simp [hst]), if_pos hst]
    · rw [if_pos (by simp [hst]), if_neg hst]
      rfl
  · have hv : 0 ≤ st.2 / (nc.2 : ℤ) :=
      Int.ediv_nonneg hw (Int.natCast_nonneg nc.2)
    simp only [formatStep]
    split_ifs with h1 h2 h3
    · exact ⟨_, rfl⟩
    · exact ⟨_, rfl⟩
    · exact ⟨_, rfl⟩
    · exfalso
      rcases not_or.mp h3 with ⟨h31, h32⟩
      exact h32 ⟨by omega, hne⟩

/-- Witness for C8: the minutes step at state `(["1 hour"], 30)` (value
0, coarser unit emitted) appends `"0 minutes"`; the same step appends an
entry whenever the emitted list is nonempty. -/
theorem zero_unit_emission_witness :
    ((30:ℤ) / ((60:ℕ) : ℤ) = 0 ∧
      (formatStep (["1 hour"], 30) ("minute", 60)).1 =
        ["1 hour"] ++ ["0 minutes"]) ∧
    ((0:ℤ) ≤ 30 ∧ (["1 hour"] : List String) ≠ [] ∧
      ∃ s : String,
        (formatStep (["1 hour"], 30) ("minute", 60)).1 = ["1 hour"] ++ [s]) ∧
    format_time 3600 = "1 hour, 0 minutes, 0.00 seconds" := by
  refine ⟨⟨by decide, ?_⟩, ⟨by decide, by decide, ?_⟩, ?_⟩
  · exact ((zero_unit_emission (["1 hour"], 30) ("minute", 60)).1
      (by decide)).trans (by decide)
  · exact (zero_unit_emission (["1 hour"], 30) ("minute", 60)).2.1
      (by decide) (by decide)
  · exact (zero_unit_emission (["1 hour"], 30) ("minute", 60)).2.2

/-- C10: for a non-negative input, after the years step the floored value
for days is at most 364, after the days step the value for hours is at
most 23, after the hours step the value for minutes is at most 59, and
the final remainder is strictly below 60; hence the values for days,
hours and minutes are all below 1,000,000 and the scientific-notation
branch of `formatStep` can only fire for years — for which it is
reachable (`app.py:53-64`). -/
theorem unit_value_bounds (q : ℚ) (h : 0 ≤ q)
    (st₁ st₂ st₃ st₄ : List String × ℤ)
    (h₁ : st₁.2 = pyInt q)
    (h₂ : st₂.2 = (formatStep st₁ ("year", 31536000)).2)
    (h₃ : st₃.2 = (formatStep st₂ ("day", 86400)).2)
    (h₄ : st₄.2 = (formatStep st₃ ("hour", 3600)).2) :
    st₂.2 / 86400 ≤ 364 ∧ st₃.2 / 3600 ≤ 23 ∧ st₄.2 / 60 ≤ 59 ∧
    (((formatStep st₄ ("minute", 60)).2 : ℚ) + (q - (pyInt q : ℚ)) < 60) ∧
    st₂.2 / 86400 < 1000000 ∧ st₃.2 / 3600 < 1000000 ∧
    st₄.2 / 60 < 1000000 ∧
    1000000 ≤ pyInt (31536000000000 : ℚ) / 31536000 := by
  have hw : 0 ≤ pyInt q := by
    simp only [pyInt, if_pos h]
    exact Int.floor_nonneg.mpr h
  have e₂ : st₂.2 = st₁.2 % 31536000 := by rw [h₂]; rfl
  have e₃ : st₃.2 = st₂.2 % 86400 := by rw [h₃]; rfl
  have e₄ : st₄.2 = st₃.2 % 3600 := by rw [h₄]; rfl
  have e₅ : (formatStep st₄ ("minute", 60)).2 = st₄.2 % 60 := rfl
  have hfrac : q - (pyInt q : ℚ) < 1 := by
    have hfl : pyInt q = ⌊q⌋ := by simp only [pyInt, if_pos h]
    rw [hfl]
    have := Int.sub_one_lt_floor q
    linarith
  refine ⟨by omega, by omega, by omega, ?_, by omega, by omega, by omega,
    by decide⟩
  have h59 : (formatStep st₄ ("minute", 60)).2 ≤ 59 := by rw [e₅]; omega
  have h59q : ((formatStep st₄ ("minute", 60)).2 : ℚ) ≤ 59 := by
    exact_mod_cast h59
  linarith

/-- Witness for C10 at input 90 with the loop states reached there. -/
theorem unit_value_bounds_witness :
    (0 ≤ (90:ℚ)) ∧
    ((([], 90) : List String × ℤ).2 = pyInt 90 ∧
      (([], 90) : List String × ℤ).2 =
        (formatStep ([], 90) ("year", 31536000)).2 ∧
      (([], 90) : List String × ℤ).2 =
        (formatStep ([], 90) ("day", 86400)).2 ∧
      (([], 90) : List String × ℤ).2 =
        (formatStep ([], 90) ("hour", 3600)).2) ∧
    ((90:ℤ) / 86400 ≤ 364 ∧ (90:ℤ) / 3600 ≤ 23 ∧ (90:ℤ) / 60 ≤ 59 ∧
      (((formatStep ([], 90) ("minute", 60)).2 : ℚ) +
        ((90:ℚ) - (pyInt 90 : ℚ)) < 60) ∧
      (90:ℤ) / 86400 < 1000000 ∧ (90:ℤ) / 3600 < 1000000 ∧
      (90:ℤ) / 60 < 1000000 ∧
      1000000 ≤ pyInt (31536000000000 : ℚ) / 31536000) :=
  ⟨by norm_num, ⟨by decide, by decide, by decide, by decide⟩,
    unit_value_bounds 90 (by norm_num) ([], 90) ([], 90) ([], 90) ([], 90)
      (by decide) (by decide) (by decide) (by decide)⟩

end SpaceTravel
